import Mathlib

/-!
Shallow embedding of `src/src/main/modules/system/PinService.ts` (the PIN
authentication / lockout / encryption-at-rest core of the voxel repository).

Modelling conventions:
* Times are `Nat` milliseconds (`Date.now()`).  The source compares times with
  `>=`, `<` and subtracts; whenever the code computes `now - lastAttempt > attemptResetMs`
  both operands are JS numbers, and the guard is truthy only when `lastAttempt ≤ now`
  makes the difference positive, so `Nat` truncated subtraction agrees with the JS
  comparison in every reachable case (a negative JS difference and a truncated `0`
  both fail the `> attemptResetMs` test).
* JS truthiness on the numeric fields (`lockout.lockedUntil && …`,
  `lockout.lastAttempt && …`, `pinData.encryptionSalt && …`) is modelled explicitly:
  `0`, `null` and `""` are falsy.
* The external collaborators (Electron `safeStorage`, node `crypto`) are fields of a
  `CryptoEnv` parameter: `encryptString`/`decryptString` for the platform secret store
  (returning `none` where the source catches a throw, fails the `!encryptedData` guard,
  or JSON parsing fails), a single abstract `pbkdf2 (password salt iterations keyLen digest)`
  for both KDF profiles, and an abstract AES-256-GCM pair `gcmEnc`/`gcmDec`
  (which also absorb the utf8 encode/decode of the plaintext).  Base64 encoding of byte
  buffers is a bijection used consistently on both the encrypt and decrypt paths, so
  byte buffers are carried directly (`List Nat` for GCM blobs, `String` for salts,
  hashes and derived keys).
* `timingSafeEqual(storedHash, enteredHash)` is modelled as equality of the derived
  hash values (for equal-length buffers `timingSafeEqual` is exactly equality).
* `randomBytes` is modelled as explicit arguments (a randomness oracle): the salts of
  `createPinHash` and the IV of `#encryptWithKey` are parameters.
* `LockoutManager.#isValidLockoutState` checks that `count`, `lastAttempt` and
  `lockoutCount` are numbers; in the typed model every `LockoutState` value passes it,
  and an absent / structurally invalid snapshot is `none`.
* `verifyPin` captures `now = Date.now()` once; `loadFromPinData` internally calls
  `Date.now()` again microseconds later — modelled as the same instant.
-/

-- =============================================================================
-- Configuration (CONFIG in PinService.ts)
-- =============================================================================

def saltLength : Nat := 32

def hashIterations : Nat := 350000

def hashKeyLength : Nat := 64

def hashDigest : String := "sha512"

def encKeyLength : Nat := 32

def encIvLength : Nat := 16

def encAuthTagLength : Nat := 16

def encIterations : Nat := 50000

def encDigest : String := "sha256"

def maxAttempts : Nat := 5

def baseLockoutMs : Nat := 5 * 60 * 1000

def attemptResetMs : Nat := 15 * 60 * 1000

def maxLockoutMultiplier : Nat := 12

-- =============================================================================
-- Types
-- =============================================================================

/-- `interface LockoutState` -/
structure LockoutState where
  count : Nat
  lastAttempt : Nat
  lockedUntil : Option Nat
  lockoutCount : Nat
deriving Repr, DecidableEq

/-- `interface PinData` (the decrypted record payload) -/
structure PinData where
  hash : String
  salt : String
  encryptionSalt : Option String := none
  lockout : Option LockoutState := none
deriving Repr, DecidableEq

/-- `interface VerifyPinResult`; the blob type `β` is abstract. -/
structure VerifyPinResult (β : Type) where
  success : Bool
  locked : Bool
  remainingAttempts : Nat
  lockoutSeconds : Option Nat := none
  updatedEncryptedData : Option β := none
deriving Repr, DecidableEq

/-- The value returned by `LockoutManager.recordFailure`. -/
structure FailureResult where
  locked : Bool
  remainingAttempts : Nat
  lockoutSeconds : Option Nat := none
deriving Repr, DecidableEq

/-- JS truthiness of a nullable number (`null` and `0` are falsy). -/
def optTruthy : Option Nat → Bool
  | some v => v != 0
  | none => false

/-- JS truthiness of a number (`0` is falsy). -/
def natTruthy (n : Nat) : Bool := n != 0

/-- JS truthiness of a nullable string (`null` and `""` are falsy). -/
def strOptTruthy : Option String → Bool
  | some s => s != ""
  | none => false

-- =============================================================================
-- LockoutManager (pure state-passing translation)
-- =============================================================================

/-- `LockoutManager.#createDefaultState` -/
def defaultState : LockoutState :=
  { count := 0, lastAttempt := 0, lockedUntil := none, lockoutCount := 0 }

/-- `LockoutManager.#calculateLockoutDuration` (reads the *current* `lockoutCount`). -/
def calculateLockoutDuration (s : LockoutState) : Nat :=
  baseLockoutMs * min (s.lockoutCount + 1) maxLockoutMultiplier

/-- `LockoutManager.loadFromPinData` (the internal `Date.now()` is the `now` argument;
a `none` snapshot covers both the absent and the structurally invalid case). -/
def loadFromPinData (lockout : Option LockoutState) (now : Nat) : LockoutState :=
  match lockout with
  | none => defaultState
  | some l =>
    if optTruthy l.lockedUntil ∧ l.lockedUntil.getD 0 ≤ now then
      { count := 0, lastAttempt := 0, lockedUntil := none, lockoutCount := l.lockoutCount }
    else if natTruthy l.lastAttempt ∧ attemptResetMs < now - l.lastAttempt then
      defaultState
    else l

/-- `LockoutManager.checkAndUpdateExpiry` (two sequential `if`s mutating the state). -/
def checkAndUpdateExpiry (s : LockoutState) (now : Nat) : LockoutState :=
  let s1 :=
    if optTruthy s.lockedUntil ∧ s.lockedUntil.getD 0 ≤ now then
      { s with lockedUntil := none, count := 0 }
    else s
  if natTruthy s1.lastAttempt ∧ attemptResetMs < now - s1.lastAttempt then
    defaultState
  else s1

/-- `LockoutManager.isLocked`: `some remainingSeconds` when locked
(`Math.ceil((lockedUntil - now) / 1000)`), `none` otherwise. -/
def isLocked (s : LockoutState) (now : Nat) : Option Nat :=
  if optTruthy s.lockedUntil ∧ now < s.lockedUntil.getD 0 then
    some ((s.lockedUntil.getD 0 - now + 999) / 1000)
  else none

/-- `LockoutManager.recordFailure`.  The JS `remainingAttempts` can only be returned
on the non-locked branch where `count < maxAttempts`, so `Nat` subtraction agrees. -/
def recordFailure (s : LockoutState) (now : Nat) : LockoutState × FailureResult :=
  let s1 := { s with count := s.count + 1, lastAttempt := now }
  let remainingAttempts := maxAttempts - s1.count
  if maxAttempts ≤ s1.count then
    let s2 := { s1 with lockoutCount := min (s1.lockoutCount + 1) maxLockoutMultiplier }
    let lockoutDuration := calculateLockoutDuration s2
    let s3 := { s2 with lockedUntil := some (now + lockoutDuration) }
    (s3, { locked := true, remainingAttempts := 0,
           lockoutSeconds := some ((lockoutDuration + 999) / 1000) })
  else
    (s1, { locked := false, remainingAttempts := remainingAttempts })

/-- `LockoutManager.recordSuccess` -/
def recordSuccess : LockoutState := defaultState

/-- `LockoutManager.applyMaxLockout`: returns the new state and the lockout seconds. -/
def applyMaxLockout (now : Nat) : LockoutState × Nat :=
  let lockoutDuration := baseLockoutMs * maxLockoutMultiplier
  ({ count := maxAttempts, lastAttempt := now,
     lockedUntil := some (now + lockoutDuration),
     lockoutCount := maxLockoutMultiplier },
   (lockoutDuration + 999) / 1000)

-- =============================================================================
-- External collaborators (Electron safeStorage, node crypto) as an environment
-- =============================================================================

/-- The external cryptographic collaborators of `PinService`, abstracted.
`β` is the type of opaque encrypted record blobs. -/
structure CryptoEnv (β : Type) where
  /-- `safeStorage.isEncryptionAvailable()` -/
  safeStorageAvailable : Bool
  /-- `safeStorage.encryptString(JSON.stringify pinData)` + base64; `none` on throw. -/
  encryptString : PinData → Option β
  /-- base64 decode + `safeStorage.decryptString` + `JSON.parse`; `none` on any
  failure, on a falsy input blob, or on a payload whose fields are not typed as
  `PinData` demands. -/
  decryptString : β → Option PinData
  /-- `pbkdf2Sync(password, salt, iterations, keyLen, digest)` -/
  pbkdf2 : String → String → Nat → Nat → String → String
  /-- AES-256-GCM encryption: key, iv, utf8 plaintext ↦ (ciphertext, authTag). -/
  gcmEnc : String → List Nat → String → List Nat × List Nat
  /-- AES-256-GCM decryption: key, iv, authTag, ciphertext ↦ plaintext, `none` on
  authentication failure. -/
  gcmDec : String → List Nat → List Nat → List Nat → Option String

-- =============================================================================
-- PinService (pure state-passing translation)
-- =============================================================================

/-- The in-memory mutable fields of `PinService` (the `LockoutManager` instance is
its serialized `LockoutState`). -/
structure PinServiceState where
  isPinVerified : Bool := false
  derivedEncryptionKey : Option String := none
  lockout : LockoutState := defaultState
deriving Repr, DecidableEq

/-- `PinService.#validatePinFormat`: `/^\d{6}$/` -/
def validatePinFormat (pin : String) : Bool :=
  pin.length == 6 && pin.toList.all Char.isDigit

/-- `PinService.#isValidPinData` (the `typeof` checks are absorbed by typing). -/
def isValidPinData (d : PinData) : Bool :=
  0 < d.hash.length && 0 < d.salt.length

/-- `PinService.#decryptPinData` -/
def decryptPinData (env : CryptoEnv β) (encryptedData : β) : Option PinData :=
  if env.safeStorageAvailable = false then none
  else
    match env.decryptString encryptedData with
    | none => none
    | some pinData => if isValidPinData pinData then some pinData else none

/-- `PinService.#encryptPinData` -/
def encryptPinData (env : CryptoEnv β) (pinData : PinData) : Option β :=
  if env.safeStorageAvailable = false then none
  else env.encryptString pinData

/-- `PinService.#hashPin` -/
def hashPin (env : CryptoEnv β) (pin salt : String) : String :=
  env.pbkdf2 pin salt hashIterations hashKeyLength hashDigest

/-- `PinService.#deriveEncryptionKey` -/
def deriveEncryptionKey (env : CryptoEnv β) (pin salt : String) : String :=
  env.pbkdf2 pin salt encIterations encKeyLength encDigest

/-- `PinService.#updateLockoutInPinData` (uses `LockoutManager.serialize()`, i.e. the
current in-memory lockout state). -/
def updateLockoutInPinData (ps : PinServiceState) (pinData : PinData) : PinData :=
  { pinData with lockout := some ps.lockout }

/-- `PinService.#createPinHashSafe` (the two `randomBytes` salts are oracle
arguments; `#zeroBuffer hash` has no observable effect).  Note the order in the
source: the record embeds `#lockoutManager.serialize()` *before* the manager is
reset. -/
def createPinHashSafe (env : CryptoEnv β) (ps : PinServiceState)
    (pin salt encryptionSalt : String) : PinServiceState × Option β :=
  if env.safeStorageAvailable = false then (ps, none)
  else if validatePinFormat pin = false then (ps, none)
  else
    let pinData : PinData :=
      { hash := hashPin env pin salt, salt := salt,
        encryptionSalt := some encryptionSalt, lockout := some ps.lockout }
    let ps' := { ps with lockout := defaultState }
    (ps', encryptPinData env pinData)

/-- `PinService.createPinHash` -/
def createPinHash (env : CryptoEnv β) (ps : PinServiceState)
    (pin salt encryptionSalt : String) : PinServiceState × Option β :=
  createPinHashSafe env ps pin salt encryptionSalt

/-- `PinService.#handleSuccessfulVerification`.  `if (pinData.encryptionSalt)` is a
JS truthiness test (`""` is falsy). -/
def handleSuccessfulVerification (env : CryptoEnv β) (ps : PinServiceState)
    (pin : String) (pinData : PinData) : PinServiceState × VerifyPinResult β :=
  let ps1 := { ps with lockout := recordSuccess, isPinVerified := true }
  let ps2 :=
    if strOptTruthy pinData.encryptionSalt then
      let key := deriveEncryptionKey env pin (pinData.encryptionSalt.getD "")
      { ps1 with derivedEncryptionKey := some key }
    else ps1
  let updatedPinData := updateLockoutInPinData ps2 pinData
  let encryptResult := encryptPinData env updatedPinData
  (ps2, { success := true, locked := false, remainingAttempts := maxAttempts,
          updatedEncryptedData := encryptResult })

/-- `PinService.#handleFailedVerification` -/
def handleFailedVerification (env : CryptoEnv β) (ps : PinServiceState)
    (pinData : PinData) (now : Nat) : PinServiceState × VerifyPinResult β :=
  let fr := recordFailure ps.lockout now
  let ps' := { ps with lockout := fr.1 }
  let updatedPinData := updateLockoutInPinData ps' pinData
  let encryptResult := encryptPinData env updatedPinData
  (ps', { success := false, locked := fr.2.locked,
          remainingAttempts := fr.2.remainingAttempts,
          lockoutSeconds := fr.2.lockoutSeconds,
          updatedEncryptedData := encryptResult })

/-- `PinService.#performVerification` (`timingSafeEqual` on the two derived hashes
modelled as equality; `#zeroBuffer enteredHash` has no observable effect). -/
def performVerification (env : CryptoEnv β) (ps : PinServiceState)
    (enteredPin : String) (pinData : PinData) (now : Nat) :
    PinServiceState × VerifyPinResult β :=
  if hashPin env enteredPin pinData.salt = pinData.hash then
    handleSuccessfulVerification env ps enteredPin pinData
  else
    handleFailedVerification env ps pinData now

/-- `PinService.verifyPin` -/
def verifyPin (env : CryptoEnv β) (ps : PinServiceState)
    (enteredPin : String) (encryptedData : β) (now : Nat) :
    PinServiceState × VerifyPinResult β :=
  if validatePinFormat enteredPin = false then
    (ps, { success := false, locked := false, remainingAttempts := maxAttempts })
  else
    match decryptPinData env encryptedData with
    | none =>
      let ml := applyMaxLockout now
      ({ ps with lockout := ml.1 },
       { success := false, locked := true, remainingAttempts := 0,
         lockoutSeconds := some ml.2 })
    | some pinData =>
      let s1 := loadFromPinData pinData.lockout now
      let s2 := checkAndUpdateExpiry s1 now
      match isLocked s2 now with
      | some seconds =>
        ({ ps with lockout := s2 },
         { success := false, locked := true, remainingAttempts := 0,
           lockoutSeconds := some seconds })
      | none => performVerification env { ps with lockout := s2 } enteredPin pinData now

-- =============================================================================
-- PinService: encryption / decryption API
-- =============================================================================

/-- `PinService.#encryptWithKey` (the `randomBytes` IV is an oracle argument; the
returned base64 string stands for its byte content `iv ++ authTag ++ ciphertext`). -/
def encryptWithKey (env : CryptoEnv β) (data : String) (key : String)
    (iv : List Nat) : Option (List Nat) :=
  let enc := env.gcmEnc key iv data
  some (iv ++ enc.2 ++ enc.1)

/-- `PinService.#decryptWithKey` (`Buffer.subarray` clamps like `take`/`drop`). -/
def decryptWithKey (env : CryptoEnv β) (encryptedData : List Nat) (key : String) :
    Option String :=
  let iv := encryptedData.take encIvLength
  let authTag := (encryptedData.drop encIvLength).take encAuthTagLength
  let ciphertext := encryptedData.drop (encIvLength + encAuthTagLength)
  env.gcmDec key iv authTag ciphertext

/-- `PinService.encryptWithPin` (`#zeroBuffer key` has no observable effect). -/
def encryptWithPin (env : CryptoEnv β) (data pin encryptionSalt : String)
    (iv : List Nat) : Option (List Nat) :=
  encryptWithKey env data (deriveEncryptionKey env pin encryptionSalt) iv

/-- `PinService.decryptWithPin` -/
def decryptWithPin (env : CryptoEnv β) (encryptedData : List Nat)
    (pin encryptionSalt : String) : Option String :=
  decryptWithKey env encryptedData (deriveEncryptionKey env pin encryptionSalt)

/-- `PinService.encryptWithVerifiedKey` -/
def encryptWithVerifiedKey (env : CryptoEnv β) (ps : PinServiceState)
    (data : String) (iv : List Nat) : Option (List Nat) :=
  match ps.derivedEncryptionKey with
  | none => none
  | some key => encryptWithKey env data key iv

/-- `PinService.decryptWithVerifiedKey` -/
def decryptWithVerifiedKey (env : CryptoEnv β) (ps : PinServiceState)
    (encryptedData : List Nat) : Option String :=
  match ps.derivedEncryptionKey with
  | none => none
  | some key => decryptWithKey env encryptedData key

/-- `PinService.hasEncryptionKey` -/
def hasEncryptionKey (ps : PinServiceState) : Bool :=
  ps.derivedEncryptionKey.isSome

-- =============================================================================
-- Concrete instantiation of the external collaborators (for witnesses)
-- =============================================================================

/-- A concrete `CryptoEnv` over `β := PinData`: the platform store is the identity,
PBKDF2 tags its inputs, and GCM is a trivial correct cipher. -/
def sampleEnv : CryptoEnv PinData :=
  { safeStorageAvailable := true
    encryptString := some
    decryptString := some
    pbkdf2 := fun password salt iterations _ digest =>
      password ++ ":" ++ salt ++ ":" ++ toString iterations ++ ":" ++ digest
    gcmEnc := fun _ _ data => (data.toList.map Char.toNat, List.replicate 16 0)
    gcmDec := fun _ _ _ ciphertext => some (String.mk (ciphertext.map Char.ofNat)) }

/-- `sampleEnv` with an always-failing platform decrypt (tampered-blob scenario). -/
def sampleEnvBadStore : CryptoEnv PinData :=
  { sampleEnv with decryptString := fun _ => none }

/-- The `PinService` constructor state (also the state after `initialize()`). -/
def pinServiceInit : PinServiceState := {}

/-- A freshly created sample record for PIN `"123456"` under `sampleEnv`. -/
def sampleRecord : PinData :=
  { hash := "123456:S:350000:sha512", salt := "S", encryptionSalt := some "ES",
    lockout := some defaultState }

-- =============================================================================
-- C8: format rejection is free
-- =============================================================================

/-- C8: for every entered PIN that is not exactly 6 decimal digits, `verifyPin`
returns `{success:false, locked:false, remainingAttempts:5}` with no updated
record, and leaves the whole service state (in particular the lockout state)
unchanged; hence repeating the call any number of times changes nothing. -/
theorem verifyPin_format_rejection_free {β : Type} (env : CryptoEnv β)
    (ps : PinServiceState) (pin : String) (blob : β) (now : Nat)
    (h : validatePinFormat pin = false) :
    verifyPin env ps pin blob now =
      (ps, { success := false, locked := false, remainingAttempts := 5,
             lockoutSeconds := none, updatedEncryptedData := none }) := by
  simp [verifyPin, h, maxAttempts]

/-- Witness for C8 at the 5-character PIN `"12345"`. -/
theorem verifyPin_format_rejection_free_witness :
    verifyPin sampleEnv pinServiceInit "12345" sampleRecord 1000 =
      (pinServiceInit,
       { success := false, locked := false, remainingAttempts := 5,
         lockoutSeconds := none, updatedEncryptedData := none }) :=
  verifyPin_format_rejection_free sampleEnv pinServiceInit "12345" sampleRecord 1000
    (by decide)

-- =============================================================================
-- C7: unreadable record ⇒ maximum lockout
-- =============================================================================

/-- C7: for every record that cannot be decrypted or parsed into a structurally
valid PIN payload (`#decryptPinData` fails), `verifyPin` with a well-formed
6-digit PIN applies the maximum lockout (count at threshold, `lockedUntil`
60 minutes out, `lockoutCount` at the cap) and returns
`{success:false, locked:true, remainingAttempts:0, lockoutSeconds:3600}`;
the function is total, so no crash or exception is possible. -/
theorem verifyPin_unreadable_record_max_lockout {β : Type} (env : CryptoEnv β)
    (ps : PinServiceState) (pin : String) (blob : β) (now : Nat)
    (hfmt : validatePinFormat pin = true)
    (hdec : decryptPinData env blob = none) :
    verifyPin env ps pin blob now =
      ({ ps with lockout :=
           { count := 5, lastAttempt := now, lockedUntil := some (now + 3600000),
             lockoutCount := 12 } },
       { success := false, locked := true, remainingAttempts := 0,
         lockoutSeconds := some 3600, updatedEncryptedData := none }) := by
  simp [verifyPin, hfmt, hdec, applyMaxLockout, baseLockoutMs, maxLockoutMultiplier,
    maxAttempts]

/-- Witness for C7 under a platform store whose decryption always fails. -/
theorem verifyPin_unreadable_record_max_lockout_witness :
    verifyPin sampleEnvBadStore pinServiceInit "123456" sampleRecord 1000 =
      ({ pinServiceInit with lockout :=
           { count := 5, lastAttempt := 1000, lockedUntil := some (1000 + 3600000),
             lockoutCount := 12 } },
       { success := false, locked := true, remainingAttempts := 0,
         lockoutSeconds := some 3600, updatedEncryptedData := none }) :=
  verifyPin_unreadable_record_max_lockout sampleEnvBadStore pinServiceInit "123456"
    sampleRecord 1000 (by decide) (by decide)

-- =============================================================================
-- C2: lockout escalation formula
-- =============================================================================

/-- Ceiling division used in lockout-seconds reporting. -/
theorem lockout_ceil_seconds (m : Nat) : (5 * 60 * 1000 * m + 999) / 1000 = 300 * m := by
  omega

/-- C2 counterexample: the very first lockout cycle (fresh state, 5th failure at
`now = 1000`).  The claim predicts `lockedUntil = now + baseLockout * 1 = 301000`
and a 300-second (5-minute) duration; the code escalates `lockoutCount` to 1 and
*then* `#calculateLockoutDuration` adds 1 again, producing `lockedUntil = 601000`
and 600 seconds. -/
theorem recordFailure_first_cycle_counterexample :
    (recordFailure { count := 4, lastAttempt := 0, lockedUntil := none, lockoutCount := 0 } 1000).1.lockoutCount = 1
    ∧ (recordFailure { count := 4, lastAttempt := 0, lockedUntil := none, lockoutCount := 0 } 1000).1.lockedUntil = some 601000
    ∧ (recordFailure { count := 4, lastAttempt := 0, lockedUntil := none, lockoutCount := 0 } 1000).2.lockoutSeconds = some 600
    ∧ some 601000 ≠ some (1000 + baseLockoutMs * 1)
    ∧ (some 600 : Option Nat) ≠ some 300 := by
  decide

/-- C2 (amended): when `recordFailure` brings `count` to the max-attempts
threshold, it escalates `lockoutCount` to `lc' = min (lockoutCount+1) 12` and sets
`lockedUntil = now + baseLockout * min (lc' + 1) 12` — one multiplier step *more*
than the escalated count, because `#calculateLockoutDuration` adds 1 to the
already-incremented `lockoutCount`.  The n-th lockout cycle therefore lasts
`min (n+1, 12) * 5` minutes (10, 15, … up to 60 at the cap), and never exceeds
60 minutes (3600 seconds). -/
theorem recordFailure_escalation (s : LockoutState) (now : Nat)
    (h : maxAttempts ≤ s.count + 1) :
    recordFailure s now =
      ({ s with count := s.count + 1, lastAttempt := now, lockoutCount := min (s.lockoutCount + 1) maxLockoutMultiplier, lockedUntil := some (now + baseLockoutMs * min (min (s.lockoutCount + 1) maxLockoutMultiplier + 1) maxLockoutMultiplier) },
       { locked := true, remainingAttempts := 0, lockoutSeconds := some (300 * min (min (s.lockoutCount + 1) maxLockoutMultiplier + 1) maxLockoutMultiplier) })
    ∧ 300 * min (min (s.lockoutCount + 1) maxLockoutMultiplier + 1) maxLockoutMultiplier
        ≤ 3600 := by
  have hm : min (min (s.lockoutCount + 1) maxLockoutMultiplier + 1) maxLockoutMultiplier
      ≤ 12 := by
    simp [maxLockoutMultiplier]
  refine ⟨?_, by omega⟩
  simp only [recordFailure, calculateLockoutDuration, if_pos h, baseLockoutMs,
    lockout_ceil_seconds]

/-- Witness for C2 (amended) at the second lockout cycle
(`lockoutCount = 1` entering the 5th failure): duration 15 minutes. -/
theorem recordFailure_escalation_witness :
    (recordFailure { count := 4, lastAttempt := 0, lockedUntil := none, lockoutCount := 1 } 7 =
      ({ count := 5, lastAttempt := 7, lockedUntil := some (7 + baseLockoutMs * min (min (1 + 1) maxLockoutMultiplier + 1) maxLockoutMultiplier), lockoutCount := min (1 + 1) maxLockoutMultiplier },
       { locked := true, remainingAttempts := 0, lockoutSeconds := some (300 * min (min (1 + 1) maxLockoutMultiplier + 1) maxLockoutMultiplier) })
    ∧ 300 * min (min (1 + 1) maxLockoutMultiplier + 1) maxLockoutMultiplier ≤ 3600) :=
  recordFailure_escalation
    { count := 4, lastAttempt := 0, lockedUntil := none, lockoutCount := 1 } 7
    (by decide)

-- =============================================================================
-- C3: loadFromPinData full reset vs. active locks
-- =============================================================================

/-- C3 counterexample: a snapshot that is stale (`lastAttempt = 1`, `now = 900002`,
more than 15 minutes later) but still actively locked (`lockedUntil = 3600001`,
far in the future) is fully reset by `loadFromPinData` — the active lock and the
escalation memory are cleared, which the claim says can never happen. -/
theorem loadFromPinData_clears_active_lock_counterexample :
    loadFromPinData (some { count := 5, lastAttempt := 1, lockedUntil := some 3600001, lockoutCount := 3 }) 900002 = defaultState
    ∧ 900002 < 3600001 := by
  decide

/-- C3 (amended): `loadFromPinData` fully resets the state (including
`lockoutCount`) for any snapshot that is stale — nonzero `lastAttempt` more than
the 15-minute attempt-reset window before `now` — whenever the expired-lock
branch did not fire (i.e. `lockedUntil` is null/zero or still in the future).
In particular a snapshot whose `lockedUntil` is still in the future does NOT
keep its active lock when `lastAttempt` is stale: staleness wins and the lock
is cleared. -/
theorem loadFromPinData_stale_reset (l : LockoutState) (now : Nat)
    (hla : l.lastAttempt ≠ 0)
    (hstale : attemptResetMs < now - l.lastAttempt)
    (hexp : ¬(optTruthy l.lockedUntil = true ∧ l.lockedUntil.getD 0 ≤ now)) :
    loadFromPinData (some l) now = defaultState := by
  simp only [loadFromPinData]
  rw [if_neg, if_pos]
  · exact ⟨by simp [natTruthy, hla], hstale⟩
  · intro hc
    exact hexp ⟨hc.1, hc.2⟩

/-- Witness for C3 (amended): a stale snapshot locked until far in the future. -/
theorem loadFromPinData_stale_reset_witness :
    loadFromPinData (some { count := 5, lastAttempt := 1, lockedUntil := some 7200001, lockoutCount := 4 }) 1000002 = defaultState :=
  loadFromPinData_stale_reset
    { count := 5, lastAttempt := 1, lockedUntil := some 7200001, lockoutCount := 4 }
    1000002 (by decide) (by decide) (by decide)

-- =============================================================================
-- C5: createPin and the embedded lockout snapshot
-- =============================================================================

/-- C5 counterexample: calling `createPinHashSafe` while the in-memory lockout
state is dirty (`count = 1`) embeds that dirty state — not the zero state — into
the record it encrypts and returns (the source serializes the manager *before*
resetting it). -/
theorem createPin_dirty_lockout_counterexample :
    (createPinHashSafe sampleEnv { lockout := { count := 1, lastAttempt := 5, lockedUntil := none, lockoutCount := 0 } } "123456" "S" "ES").2
      = some { hash := "123456:S:350000:sha512", salt := "S", encryptionSalt := some "ES", lockout := some { count := 1, lastAttempt := 5, lockedUntil := none, lockoutCount := 0 } }
    ∧ (some { count := 1, lastAttempt := 5, lockedUntil := none, lockoutCount := 0 } : Option LockoutState) ≠ some defaultState := by
  decide

/-- C5 (amended): for every valid 6-digit PIN, `createPinHashSafe` assembles the
record it encrypts with `lockout` equal to the in-memory lockout state as it was
at the time of the call (the zero state only when the manager is already in its
default state), and resets the in-memory manager afterwards. -/
theorem createPin_embeds_current_lockout {β : Type} (env : CryptoEnv β)
    (ps : PinServiceState) (pin salt encryptionSalt : String)
    (hav : env.safeStorageAvailable = true)
    (hfmt : validatePinFormat pin = true) :
    createPinHashSafe env ps pin salt encryptionSalt =
      ({ ps with lockout := defaultState },
       env.encryptString { hash := hashPin env pin salt, salt := salt, encryptionSalt := some encryptionSalt, lockout := some ps.lockout }) := by
  simp [createPinHashSafe, hav, hfmt, encryptPinData]

/-- Witness for C5 (amended) with a dirty in-memory state. -/
theorem createPin_embeds_current_lockout_witness :
    createPinHashSafe sampleEnv { lockout := { count := 2, lastAttempt := 9, lockedUntil := none, lockoutCount := 1 } } "654321" "S2" "ES2" =
      ({ ({ lockout := { count := 2, lastAttempt := 9, lockedUntil := none, lockoutCount := 1 } } : PinServiceState) with lockout := defaultState },
       sampleEnv.encryptString { hash := hashPin sampleEnv "654321" "S2", salt := "S2", encryptionSalt := some "ES2", lockout := some { count := 2, lastAttempt := 9, lockedUntil := none, lockoutCount := 1 } }) :=
  createPin_embeds_current_lockout sampleEnv
    { lockout := { count := 2, lastAttempt := 9, lockedUntil := none, lockoutCount := 1 } }
    "654321" "S2" "ES2" (by decide) (by decide)

-- =============================================================================
-- C4: behaviour of verifyPin on a record that is locked into the future
-- =============================================================================

/-- C4 counterexample: a record whose embedded lockout has `lockedUntil =
99999999`, far in the future of the call time `now = 900002`, but whose
`lastAttempt = 1` is more than 15 minutes old.  `loadFromPinData` clears the
active lock as stale, the hash comparison *is* performed, and the correct PIN
verifies with `success = true` — the claim says this call must return
`locked:true` without any comparison. -/
theorem verifyPin_locked_future_counterexample :
    (verifyPin sampleEnv pinServiceInit "123456" { hash := "123456:S:350000:sha512", salt := "S", encryptionSalt := some "ES", lockout := some { count := 5, lastAttempt := 1, lockedUntil := some 99999999, lockoutCount := 3 } } 900002).2.success = true
    ∧ 900002 < 99999999 := by
  decide

/-- C4 (amended): for every record whose embedded lockout state has `lockedUntil`
in the future at call time *and* whose `lastAttempt` is zero or within the
15-minute attempt-reset window, `verifyPin` — with any well-formed entered PIN,
in particular the correct one — returns `{success:false, locked:true,
remainingAttempts:0}` with the remaining `lockoutSeconds`, produces no updated
record, performs no hash comparison (the result does not depend on the KDF), and
leaves the loaded lockout state and the rest of the service state unchanged. -/
theorem verifyPin_locked_returns_locked {β : Type} (env : CryptoEnv β)
    (ps : PinServiceState) (pin : String) (blob : β) (now : Nat)
    (pinData : PinData) (ls : LockoutState) (T : Nat)
    (hfmt : validatePinFormat pin = true)
    (hdec : decryptPinData env blob = some pinData)
    (hlk : pinData.lockout = some ls)
    (hU : ls.lockedUntil = some T)
    (hfut : now < T)
    (hstale : ls.lastAttempt = 0 ∨ now - ls.lastAttempt ≤ attemptResetMs) :
    verifyPin env ps pin blob now =
      ({ ps with lockout := ls },
       { success := false, locked := true, remainingAttempts := 0, lockoutSeconds := some ((T - now + 999) / 1000), updatedEncryptedData := none }) := by
  have hT0 : (T != 0) = true := by simp; omega
  have hnotle : ¬ (T ≤ now) := Nat.not_le.mpr hfut
  have hstale' : ¬ (natTruthy ls.lastAttempt = true ∧ attemptResetMs < now - ls.lastAttempt) := by
    rcases hstale with h0 | hle
    · simp [natTruthy, h0]
    · rintro ⟨_, hlt⟩
      omega
  have hload : loadFromPinData pinData.lockout now = ls := by
    rw [hlk]
    simp only [loadFromPinData, hU, optTruthy, Option.getD_some]
    rw [if_neg, if_neg]
    · exact hstale'
    · rintro ⟨_, hle⟩
      exact hnotle hle
  have hc1 : ¬ ((T != 0) = true ∧ T ≤ now) := fun h => hnotle h.2
  have hexpiry : checkAndUpdateExpiry ls now = ls := by
    simp only [checkAndUpdateExpiry, hU, optTruthy, Option.getD_some, if_neg hc1]
    rw [if_neg hstale']
  have hlocked : isLocked ls now = some ((T - now + 999) / 1000) := by
    simp only [isLocked, hU, optTruthy, Option.getD_some]
    rw [if_pos]
    exact ⟨hT0, hfut⟩
  simp only [verifyPin, hfmt, Bool.true_eq_false, if_false, hdec, hload, hexpiry, hlocked]

/-- Witness for C4 (amended): a record locked until `99999999` checked at
`now = 900002` with a fresh `lastAttempt`, supplying the correct PIN. -/
theorem verifyPin_locked_returns_locked_witness :
    verifyPin sampleEnv pinServiceInit "123456" { hash := "123456:S:350000:sha512", salt := "S", encryptionSalt := some "ES", lockout := some { count := 2, lastAttempt := 900000, lockedUntil := some 99999999, lockoutCount := 1 } } 900002 =
      ({ pinServiceInit with lockout := { count := 2, lastAttempt := 900000, lockedUntil := some 99999999, lockoutCount := 1 } },
       { success := false, locked := true, remainingAttempts := 0, lockoutSeconds := some ((99999999 - 900002 + 999) / 1000), updatedEncryptedData := none }) :=
  verifyPin_locked_returns_locked sampleEnv pinServiceInit "123456"
    { hash := "123456:S:350000:sha512", salt := "S", encryptionSalt := some "ES", lockout := some { count := 2, lastAttempt := 900000, lockedUntil := some 99999999, lockoutCount := 1 } }
    900002
    { hash := "123456:S:350000:sha512", salt := "S", encryptionSalt := some "ES", lockout := some { count := 2, lastAttempt := 900000, lockedUntil := some 99999999, lockoutCount := 1 } }
    { count := 2, lastAttempt := 900000, lockedUntil := some 99999999, lockoutCount := 1 }
    99999999 (by decide) (by decide) rfl rfl (by decide) (Or.inr (by decide))

-- =============================================================================
-- C9: successful verification derives and caches the session key
-- =============================================================================

/-- C9: every `verifyPin` call that reaches a successful hash match (readable
record, not locked after load/expiry, matching hash, record carrying a nonempty
`encryptionSalt`) derives the session key from the entered PIN and the record's
`encryptionSalt` with the faster KDF profile (50 000 iterations, 32-byte key,
SHA-256 — distinct from the 350 000-iteration SHA-512 verification hash) and
caches it, replacing any previously cached key (`ps.derivedEncryptionKey` is
arbitrary); afterwards `hasEncryptionKey` is `true` and
`encryptWithVerifiedKey`/`decryptWithVerifiedKey` run the cipher with that key
instead of returning `null` for lack of a key. -/
theorem verifyPin_success_caches_session_key {β : Type} (env : CryptoEnv β)
    (ps : PinServiceState) (pin : String) (blob : β) (now : Nat)
    (pinData : PinData) (es : String)
    (hfmt : validatePinFormat pin = true)
    (hdec : decryptPinData env blob = some pinData)
    (hnl : isLocked (checkAndUpdateExpiry (loadFromPinData pinData.lockout now) now) now = none)
    (hmatch : hashPin env pin pinData.salt = pinData.hash)
    (hes : pinData.encryptionSalt = some es)
    (hne : es ≠ "") :
    (verifyPin env ps pin blob now).1.derivedEncryptionKey = some (env.pbkdf2 pin es 50000 32 "sha256")
    ∧ (verifyPin env ps pin blob now).2.success = true
    ∧ hasEncryptionKey (verifyPin env ps pin blob now).1 = true
    ∧ (∀ data iv, encryptWithVerifiedKey env (verifyPin env ps pin blob now).1 data iv = encryptWithKey env data (env.pbkdf2 pin es 50000 32 "sha256") iv)
    ∧ (∀ eb, decryptWithVerifiedKey env (verifyPin env ps pin blob now).1 eb = decryptWithKey env eb (env.pbkdf2 pin es 50000 32 "sha256")) := by
  have hvp : (verifyPin env ps pin blob now).1.derivedEncryptionKey = some (env.pbkdf2 pin es 50000 32 "sha256")
      ∧ (verifyPin env ps pin blob now).2.success = true := by
    simp only [verifyPin, hfmt, Bool.true_eq_false, if_false, hdec, hnl,
      performVerification, if_pos hmatch, handleSuccessfulVerification, hes,
      strOptTruthy, deriveEncryptionKey, encIterations, encKeyLength, encDigest]
    simp [hne]
  refine ⟨hvp.1, hvp.2, ?_, ?_, ?_⟩
  · simp [hasEncryptionKey, hvp.1]
  · intro data iv
    simp [encryptWithVerifiedKey, hvp.1]
  · intro eb
    simp [decryptWithVerifiedKey, hvp.1]

/-- Witness for C9 with `sampleEnv` and a fresh record for PIN `"123456"`. -/
theorem verifyPin_success_caches_session_key_witness :
    ((verifyPin sampleEnv pinServiceInit "123456" sampleRecord 50).1.derivedEncryptionKey = some (sampleEnv.pbkdf2 "123456" "ES" 50000 32 "sha256")
    ∧ (verifyPin sampleEnv pinServiceInit "123456" sampleRecord 50).2.success = true
    ∧ hasEncryptionKey (verifyPin sampleEnv pinServiceInit "123456" sampleRecord 50).1 = true
    ∧ (∀ data iv, encryptWithVerifiedKey sampleEnv (verifyPin sampleEnv pinServiceInit "123456" sampleRecord 50).1 data iv = encryptWithKey sampleEnv data (sampleEnv.pbkdf2 "123456" "ES" 50000 32 "sha256") iv)
    ∧ (∀ eb, decryptWithVerifiedKey sampleEnv (verifyPin sampleEnv pinServiceInit "123456" sampleRecord 50).1 eb = decryptWithKey sampleEnv eb (sampleEnv.pbkdf2 "123456" "ES" 50000 32 "sha256"))) :=
  verifyPin_success_caches_session_key sampleEnv pinServiceInit "123456" sampleRecord 50
    sampleRecord "ES" (by decide) (by decide) (by decide) (by decide) rfl (by decide)

-- =============================================================================
-- C10: stateless encryption round-trip
-- =============================================================================

/-- C10: for every data string, PIN and encryption salt, when
`encryptWithPin(data, pin, salt)` returns a blob (for a 16-byte random nonce and
an AES-GCM cipher whose decryption inverts its encryption, with 16-byte auth
tags), `decryptWithPin` of that blob with the same PIN and salt returns exactly
the original data: the derived keys agree and the `iv ‖ authTag ‖ ciphertext`
layout written by `#encryptWithKey` is split back correctly by
`#decryptWithKey`. -/
theorem encryptWithPin_decryptWithPin_roundtrip {β : Type} (env : CryptoEnv β)
    (data pin encryptionSalt : String) (iv b : List Nat)
    (hiv : iv.length = encIvLength)
    (htag : (env.gcmEnc (deriveEncryptionKey env pin encryptionSalt) iv data).2.length = encAuthTagLength)
    (hgcm : env.gcmDec (deriveEncryptionKey env pin encryptionSalt) iv (env.gcmEnc (deriveEncryptionKey env pin encryptionSalt) iv data).2 (env.gcmEnc (deriveEncryptionKey env pin encryptionSalt) iv data).1 = some data)
    (hb : encryptWithPin env data pin encryptionSalt iv = some b) :
    decryptWithPin env b pin encryptionSalt = some data := by
  have hb' : b = iv ++ (env.gcmEnc (deriveEncryptionKey env pin encryptionSalt) iv data).2 ++ (env.gcmEnc (deriveEncryptionKey env pin encryptionSalt) iv data).1 := by
    have h := hb
    simp only [encryptWithPin, encryptWithKey, Option.some.injEq] at h
    exact h.symm
  subst hb'
  simp only [decryptWithPin, decryptWithKey, List.append_assoc]
  rw [List.take_left' hiv, List.drop_left' hiv, List.take_left' htag]
  have hdrop : (iv ++ ((env.gcmEnc (deriveEncryptionKey env pin encryptionSalt) iv data).2 ++ (env.gcmEnc (deriveEncryptionKey env pin encryptionSalt) iv data).1)).drop (encIvLength + encAuthTagLength) = (env.gcmEnc (deriveEncryptionKey env pin encryptionSalt) iv data).1 := by
    rw [← List.drop_drop, List.drop_left' hiv, List.drop_left' htag]
  rw [hdrop]
  exact hgcm

/-- Witness for C10 with `sampleEnv`, data `"hi"`, a constant 16-byte IV. -/
theorem encryptWithPin_decryptWithPin_roundtrip_witness :
    decryptWithPin sampleEnv (List.replicate 16 7 ++ List.replicate 16 0 ++ [104, 105]) "123456" "ES" = some "hi" :=
  encryptWithPin_decryptWithPin_roundtrip sampleEnv "hi" "123456" "ES"
    (List.replicate 16 7) (List.replicate 16 7 ++ List.replicate 16 0 ++ [104, 105])
    (by decide) (by decide) (by decide) (by decide)

-- =============================================================================
-- Helper lemmas on the zero lockout state
-- =============================================================================

/-- Loading the zero-state snapshot leaves the zero state. -/
theorem loadFromPinData_default (now : Nat) :
    loadFromPinData (some defaultState) now = defaultState := by
  simp [loadFromPinData, defaultState, optTruthy, natTruthy]

/-- Expiry checking does nothing on the zero state. -/
theorem checkAndUpdateExpiry_default (now : Nat) :
    checkAndUpdateExpiry defaultState now = defaultState := by
  simp [checkAndUpdateExpiry, defaultState, optTruthy, natTruthy]

/-- The zero state is not locked. -/
theorem isLocked_default (now : Nat) : isLocked defaultState now = none := by
  simp [isLocked, defaultState, optTruthy]

-- =============================================================================
-- C6: createPin / verifyPin round-trip
-- =============================================================================

/-- C6: for every valid 6-digit PIN `p`, when `createPin(p)` produces a record
(platform store available and faithful: decryption inverts encryption; the
service's in-memory lockout state is the zero state, as after construction or
`initialize()`; the PBKDF2 hash and the salt are nonempty byte strings),
`verifyPin(p, createPin(p))` returns `success:true`, `locked:false` and
`remainingAttempts` equal to the maximum (5). -/
theorem createPin_verifyPin_roundtrip {β : Type} (env : CryptoEnv β) (f : PinData → β)
    (ps : PinServiceState) (pin salt encryptionSalt : String) (now : Nat) (b : β)
    (hav : env.safeStorageAvailable = true)
    (henc : ∀ d, env.encryptString d = some (f d))
    (hdec : ∀ d, env.decryptString (f d) = some d)
    (hfmt : validatePinFormat pin = true)
    (hzero : ps.lockout = defaultState)
    (hhash : 0 < (hashPin env pin salt).length)
    (hsalt : 0 < salt.length)
    (hb : (createPinHashSafe env ps pin salt encryptionSalt).2 = some b) :
    (verifyPin env (createPinHashSafe env ps pin salt encryptionSalt).1 pin b now).2.success = true
    ∧ (verifyPin env (createPinHashSafe env ps pin salt encryptionSalt).1 pin b now).2.locked = false
    ∧ (verifyPin env (createPinHashSafe env ps pin salt encryptionSalt).1 pin b now).2.remainingAttempts = 5 := by
  have hcreate : createPinHashSafe env ps pin salt encryptionSalt =
      ({ ps with lockout := defaultState },
       some (f { hash := hashPin env pin salt, salt := salt, encryptionSalt := some encryptionSalt, lockout := some defaultState })) := by
    simp [createPinHashSafe, hav, hfmt, encryptPinData, henc, hzero]
  rw [hcreate] at hb
  have hbf : b = f { hash := hashPin env pin salt, salt := salt, encryptionSalt := some encryptionSalt, lockout := some defaultState } :=
    (Option.some.injEq _ _ ▸ hb).symm
  subst hbf
  rw [hcreate]
  have hdecRec : decryptPinData env (f { hash := hashPin env pin salt, salt := salt, encryptionSalt := some encryptionSalt, lockout := some defaultState }) =
      some { hash := hashPin env pin salt, salt := salt, encryptionSalt := some encryptionSalt, lockout := some defaultState } := by
    simp [decryptPinData, hav, hdec, isValidPinData, hhash, hsalt]
  simp only [verifyPin, hfmt, Bool.true_eq_false, if_false, hdecRec,
    loadFromPinData_default, checkAndUpdateExpiry_default, isLocked_default,
    performVerification, handleSuccessfulVerification, maxAttempts]
  simp

/-- Witness for C6 with `sampleEnv` and PIN `"123456"`. -/
theorem createPin_verifyPin_roundtrip_witness :
    ((verifyPin sampleEnv (createPinHashSafe sampleEnv pinServiceInit "123456" "S" "ES").1 "123456" sampleRecord 12345).2.success = true
    ∧ (verifyPin sampleEnv (createPinHashSafe sampleEnv pinServiceInit "123456" "S" "ES").1 "123456" sampleRecord 12345).2.locked = false
    ∧ (verifyPin sampleEnv (createPinHashSafe sampleEnv pinServiceInit "123456" "S" "ES").1 "123456" sampleRecord 12345).2.remainingAttempts = 5) :=
  createPin_verifyPin_roundtrip sampleEnv id pinServiceInit "123456" "S" "ES" 12345
    sampleRecord (by decide) (fun d => rfl) (fun d => rfl) (by decide) rfl
    (by decide) (by decide) (by decide)

-- =============================================================================
-- C1: consecutive wrong attempts on a fresh record
-- =============================================================================

/-- Harness: one verification attempt, threading the updated record blob that the
caller must persist (`updatedEncryptedData`, falling back to the previous blob
when none is returned). -/
def attemptStep {β : Type} (env : CryptoEnv β) (pin : String) (now : Nat)
    (x : PinServiceState × β) : (PinServiceState × β) × VerifyPinResult β :=
  let r := verifyPin env x.1 pin x.2 now
  ((r.1, (r.2.updatedEncryptedData).getD x.2), r.2)

/-- Harness: the results of `n` consecutive attempts with the same entered PIN. -/
def attemptResults {β : Type} (env : CryptoEnv β) (pin : String) (now : Nat) :
    Nat → PinServiceState × β → List (VerifyPinResult β)
  | 0, _ => []
  | n + 1, x =>
    let r := attemptStep env pin now x
    r.2 :: attemptResults env pin now n r.1

/-- One `verifyPin` call with a wrong (but well-formed) PIN against a readable
record whose lockout snapshot is unlocked and not stale reduces to
`recordFailure` on that snapshot, re-embedding the updated snapshot in a fresh
blob. -/
theorem verifyPin_wrong_attempt {β : Type} (env : CryptoEnv β) (f : PinData → β)
    (ps : PinServiceState) (w H S : String) (ES : Option String) (now : Nat)
    (s : LockoutState)
    (hav : env.safeStorageAvailable = true)
    (henc : ∀ d, env.encryptString d = some (f d))
    (hdec : ∀ d, env.decryptString (f d) = some d)
    (hH : 0 < H.length) (hS : 0 < S.length)
    (hfmt : validatePinFormat w = true)
    (hwrong : hashPin env w S ≠ H)
    (hnl : s.lockedUntil = none)
    (hstale : s.lastAttempt = 0 ∨ now - s.lastAttempt ≤ attemptResetMs) :
    verifyPin env ps w (f { hash := H, salt := S, encryptionSalt := ES, lockout := some s }) now =
      ({ ps with lockout := (recordFailure s now).1 },
       { success := false, locked := (recordFailure s now).2.locked,
         remainingAttempts := (recordFailure s now).2.remainingAttempts,
         lockoutSeconds := (recordFailure s now).2.lockoutSeconds,
         updatedEncryptedData := some (f { hash := H, salt := S, encryptionSalt := ES, lockout := some (recordFailure s now).1 }) }) := by
  have hstale' : ¬ (natTruthy s.lastAttempt = true ∧ attemptResetMs < now - s.lastAttempt) := by
    rcases hstale with h0 | hle
    · simp [natTruthy, h0]
    · rintro ⟨_, hlt⟩
      omega
  have hload : loadFromPinData (some s) now = s := by
    simp only [loadFromPinData, hnl, optTruthy]
    simp [hstale']
  have hexp : checkAndUpdateExpiry s now = s := by
    simp only [checkAndUpdateExpiry, hnl, optTruthy]
    simp [hstale']
  have hlk : isLocked s now = none := by
    simp [isLocked, hnl, optTruthy]
  have hdecRec : decryptPinData env (f { hash := H, salt := S, encryptionSalt := ES, lockout := some s }) =
      some { hash := H, salt := S, encryptionSalt := ES, lockout := some s } := by
    simp [decryptPinData, hav, hdec, isValidPinData, hH, hS]
  simp only [verifyPin, hfmt, Bool.true_eq_false, if_false, hdecRec, hload, hexp, hlk,
    performVerification]
  rw [if_neg hwrong]
  simp only [handleFailedVerification, updateLockoutInPinData, encryptPinData, hav, henc]
  simp

/-- C1 counterexample: on a freshly created record under `sampleEnv`, five
consecutive wrong attempts (threaded through `updatedEncryptedData`) do return
`remainingAttempts` 4, 3, 2, 1 — but the fifth returns `lockoutSeconds = 600`,
not the ≈300 seconds (5-minute base lockout) the claim asserts. -/
theorem lockout_threshold_counterexample :
    (attemptResults sampleEnv "222222" 0 5 (pinServiceInit, sampleRecord)).map (fun r => (r.locked, r.remainingAttempts, r.lockoutSeconds))
      = [(false, 4, none), (false, 3, none), (false, 2, none), (false, 1, none), (true, 0, some 600)]
    ∧ (some 600 : Option Nat) ≠ some 300 := by
  constructor
  · rfl
  · decide

/-- C1 (amended): for a freshly created PIN record (zero lockout state), with a
faithful platform store and any wrong 6-digit PIN, four consecutive wrong
attempts (each threading the updated record) return `locked:false` with
`remainingAttempts` decreasing 4, 3, 2, 1, and the fifth consecutive wrong
attempt returns `locked:true` with `remainingAttempts 0` and
`lockoutSeconds = 600` — twice the 5-minute base lockout, because the duration
multiplier is computed after `lockoutCount` has already been incremented. -/
theorem lockout_threshold_sequence {β : Type} (env : CryptoEnv β) (f : PinData → β)
    (ps : PinServiceState) (w H S : String) (ES : Option String) (t : Nat)
    (hav : env.safeStorageAvailable = true)
    (henc : ∀ d, env.encryptString d = some (f d))
    (hdec : ∀ d, env.decryptString (f d) = some d)
    (hH : 0 < H.length) (hS : 0 < S.length)
    (hfmt : validatePinFormat w = true)
    (hwrong : hashPin env w S ≠ H) :
    (attemptResults env w t 5 (ps, f { hash := H, salt := S, encryptionSalt := ES, lockout := some defaultState })).map (fun r => (r.locked, r.remainingAttempts, r.lockoutSeconds))
      = [(false, 4, none), (false, 3, none), (false, 2, none), (false, 1, none), (true, 0, some 600)] := by
  have hstep : ∀ (q : PinServiceState) (s : LockoutState), s.lockedUntil = none →
      (s.lastAttempt = 0 ∨ t - s.lastAttempt ≤ attemptResetMs) →
      attemptStep env w t (q, f { hash := H, salt := S, encryptionSalt := ES, lockout := some s }) =
        (({ q with lockout := (recordFailure s t).1 }, f { hash := H, salt := S, encryptionSalt := ES, lockout := some (recordFailure s t).1 }),
         { success := false, locked := (recordFailure s t).2.locked, remainingAttempts := (recordFailure s t).2.remainingAttempts, lockoutSeconds := (recordFailure s t).2.lockoutSeconds, updatedEncryptedData := some (f { hash := H, salt := S, encryptionSalt := ES, lockout := some (recordFailure s t).1 }) }) := by
    intro q s h1 h2
    simp only [attemptStep,
      verifyPin_wrong_attempt env f q w H S ES t s hav henc hdec hH hS hfmt hwrong h1 h2]
    simp
  have hr0 : recordFailure defaultState t = ({ count := 1, lastAttempt := t, lockedUntil := none, lockoutCount := 0 }, { locked := false, remainingAttempts := 4, lockoutSeconds := none }) := by
    norm_num [recordFailure, defaultState, maxAttempts]
  have hr1 : recordFailure { count := 1, lastAttempt := t, lockedUntil := none, lockoutCount := 0 } t = ({ count := 2, lastAttempt := t, lockedUntil := none, lockoutCount := 0 }, { locked := false, remainingAttempts := 3, lockoutSeconds := none }) := by
    norm_num [recordFailure, maxAttempts]
  have hr2 : recordFailure { count := 2, lastAttempt := t, lockedUntil := none, lockoutCount := 0 } t = ({ count := 3, lastAttempt := t, lockedUntil := none, lockoutCount := 0 }, { locked := false, remainingAttempts := 2, lockoutSeconds := none }) := by
    norm_num [recordFailure, maxAttempts]
  have hr3 : recordFailure { count := 3, lastAttempt := t, lockedUntil := none, lockoutCount := 0 } t = ({ count := 4, lastAttempt := t, lockedUntil := none, lockoutCount := 0 }, { locked := false, remainingAttempts := 1, lockoutSeconds := none }) := by
    norm_num [recordFailure, maxAttempts]
  have hr4 : recordFailure { count := 4, lastAttempt := t, lockedUntil := none, lockoutCount := 0 } t = ({ count := 5, lastAttempt := t, lockedUntil := some (t + 600000), lockoutCount := 1 }, { locked := true, remainingAttempts := 0, lockoutSeconds := some 600 }) := by
    norm_num [recordFailure, calculateLockoutDuration, maxAttempts, maxLockoutMultiplier, baseLockoutMs]
  have h0 := hstep ps defaultState rfl (Or.inl rfl)
  rw [hr0] at h0
  have h1 := hstep { ps with lockout := { count := 1, lastAttempt := t, lockedUntil := none, lockoutCount := 0 } } { count := 1, lastAttempt := t, lockedUntil := none, lockoutCount := 0 } rfl (Or.inr (by simp))
  rw [hr1] at h1
  have h2 := hstep { { ps with lockout := { count := 1, lastAttempt := t, lockedUntil := none, lockoutCount := 0 } } with lockout := { count := 2, lastAttempt := t, lockedUntil := none, lockoutCount := 0 } } { count := 2, lastAttempt := t, lockedUntil := none, lockoutCount := 0 } rfl (Or.inr (by simp))
  rw [hr2] at h2
  have h3 := hstep { { { ps with lockout := { count := 1, lastAttempt := t, lockedUntil := none, lockoutCount := 0 } } with lockout := { count := 2, lastAttempt := t, lockedUntil := none, lockoutCount := 0 } } with lockout := { count := 3, lastAttempt := t, lockedUntil := none, lockoutCount := 0 } } { count := 3, lastAttempt := t, lockedUntil := none, lockoutCount := 0 } rfl (Or.inr (by simp))
  rw [hr3] at h3
  have h4 := hstep { { { { ps with lockout := { count := 1, lastAttempt := t, lockedUntil := none, lockoutCount := 0 } } with lockout := { count := 2, lastAttempt := t, lockedUntil := none, lockoutCount := 0 } } with lockout := { count := 3, lastAttempt := t, lockedUntil := none, lockoutCount := 0 } } with lockout := { count := 4, lastAttempt := t, lockedUntil := none, lockoutCount := 0 } } { count := 4, lastAttempt := t, lockedUntil := none, lockoutCount := 0 } rfl (Or.inr (by simp))
  rw [hr4] at h4
  show (attemptResults env w t (4 + 1) (ps, f { hash := H, salt := S, encryptionSalt := ES, lockout := some defaultState })).map (fun r => (r.locked, r.remainingAttempts, r.lockoutSeconds)) = _
  rw [attemptResults]
  simp only [h0]
  show _ :: (attemptResults env w t (3 + 1) _).map _ = _
  rw [attemptResults]
  simp only [h1]
  show _ :: _ :: (attemptResults env w t (2 + 1) _).map _ = _
  rw [attemptResults]
  simp only [h2]
  show _ :: _ :: _ :: (attemptResults env w t (1 + 1) _).map _ = _
  rw [attemptResults]
  simp only [h3]
  show _ :: _ :: _ :: _ :: (attemptResults env w t (0 + 1) _).map _ = _
  rw [attemptResults]
  simp only [h4]
  simp [attemptResults]

/-- Witness for C1 (amended) under `sampleEnv`, wrong PIN `"000000"`, `t = 42`. -/
theorem lockout_threshold_sequence_witness :
    (attemptResults sampleEnv "000000" 42 5 (pinServiceInit, (id : PinData → PinData) { hash := "123456:S:350000:sha512", salt := "S", encryptionSalt := some "ES", lockout := some defaultState })).map (fun r => (r.locked, r.remainingAttempts, r.lockoutSeconds))
      = [(false, 4, none), (false, 3, none), (false, 2, none), (false, 1, none), (true, 0, some 600)] :=
  lockout_threshold_sequence sampleEnv id pinServiceInit "000000"
    "123456:S:350000:sha512" "S" (some "ES") 42 (by decide) (fun d => rfl) (fun d => rfl)
    (by decide) (by decide) (by decide) (by decide)
